import Mathlib

/-!
Shallow embedding of the frame-fetching and manifest-assembly procedure of
`MLOps-Pipeline/fetcher_image/fetch.py` (the AWS HealthImaging pixel-data
fetcher), together with theorems settling the spec's claims about it.

Python dicts preserve insertion order, so JSON objects are modelled as
association lists; `dict.get(k, default)` becomes an `Option` field read
with `Option.getD`.  `bytes` payloads are modelled as `List Nat`.  Fallible
operations (remote calls, file writes) are modelled as `Except String`
values supplied by an environment, the error string standing for `str(e)`
of the raised exception.
-/

/-- One entry of an instance's `ImageFrames` list.  `frame.get("ID")` can be
absent (`none`); Python's truthiness test `if frame_id:` additionally
rejects the empty string. -/
structure FrameRef where
  ID : Option String
deriving Repr, DecidableEq

/-- One value of the `Instances` mapping: `instance_data.get("ImageFrames", [])`. -/
structure InstanceData where
  ImageFrames : Option (List FrameRef)
deriving Repr, DecidableEq

/-- One value of the `Series` mapping: `series_data.get("Instances", {})`,
an insertion-ordered mapping from instance id to instance data. -/
structure SeriesData where
  Instances : Option (List (String × InstanceData))
deriving Repr, DecidableEq

/-- The `Study` object: `study.get("Series", {})`, an insertion-ordered
mapping from series id to series data. -/
structure StudyData where
  Series : Option (List (String × SeriesData))
deriving Repr, DecidableEq

/-- The ImageSetMetadata document: `metadata.get("Study", {})`. -/
structure Metadata where
  Study : Option StudyData
deriving Repr, DecidableEq

/-- A flattened frame descriptor, as appended by `extract_frame_ids`:
`{"frameId": ..., "seriesId": ..., "instanceId": ...}`. -/
structure FrameInfo where
  frameId : String
  seriesId : String
  instanceId : String
deriving Repr, DecidableEq

/-- The series mapping reached by `metadata.get("Study", {}).get("Series", {})`. -/
def Metadata.series_dict (m : Metadata) : List (String × SeriesData) :=
  (m.Study.getD { Series := none }).Series.getD []

/-- Python truthiness of `frame.get("ID")`: present and a non-empty string. -/
def FrameRef.truthyID (fr : FrameRef) : Bool :=
  match fr.ID with
  | some s => !(s == "")
  | none => false

/-- The body of the innermost loop of `extract_frame_ids`: a frame reference
contributes a descriptor exactly when its `ID` is truthy. -/
def descriptor_of_frame (seriesId instanceId : String) (frame : FrameRef) :
    Option FrameInfo :=
  match frame.ID with
  | some fid => if fid == "" then none else
      some { frameId := fid, seriesId := seriesId, instanceId := instanceId }
  | none => none

/-- `extract_frame_ids(metadata)`: walk every series, every instance within
it, every frame reference within that, appending a descriptor for each
truthy frame `ID`, in document order. -/
def extract_frame_ids (metadata : Metadata) : List FrameInfo :=
  metadata.series_dict.flatMap (fun sp =>
    (sp.2.Instances.getD []).flatMap (fun ip =>
      (ip.2.ImageFrames.getD []).filterMap (descriptor_of_frame sp.1 ip.1)))

/-- All frame-reference entries of the document, flattened in document
order (before any `ID` filtering). -/
def all_frame_refs (m : Metadata) : List FrameRef :=
  m.series_dict.flatMap (fun sp =>
    (sp.2.Instances.getD []).flatMap (fun ip => ip.2.ImageFrames.getD []))

/-- The spec's counting formula: the sum, over all series and all instances
within them, of the number of frame-reference entries in that instance's
`ImageFrames` list. -/
def total_frame_ref_count (m : Metadata) : Nat :=
  (m.series_dict.map (fun sp =>
    ((sp.2.Instances.getD []).map
      (fun ip => (ip.2.ImageFrames.getD []).length)).sum)).sum

/-- A well-formed document: every frame reference carries a truthy `ID`. -/
def wellFormedMeta (m : Metadata) : Prop :=
  ∀ fr ∈ all_frame_refs m, fr.truthyID

lemma descriptor_of_frame_isSome (sid iid : String) (fr : FrameRef) :
    (descriptor_of_frame sid iid fr).isSome = fr.truthyID := by
  cases fr with
  | mk oid =>
    cases oid with
    | none => rfl
    | some s =>
      by_cases h : s == ""
      · simp [descriptor_of_frame, FrameRef.truthyID, h]
      · simp [descriptor_of_frame, FrameRef.truthyID, h]

lemma length_filterMap_eq_length_filter {α β : Type} (f : α → Option β)
    (l : List α) :
    (l.filterMap f).length = (l.filter (fun a => (f a).isSome)).length := by
  induction l with
  | nil => rfl
  | cons a t ih =>
    cases hfa : f a with
    | none => simp [List.filterMap_cons, hfa, List.filter_cons, ih]
    | some b => simp [List.filterMap_cons, hfa, List.filter_cons, ih]

/-- The enumeration's length is the number of truthy-`ID` frame references. -/
lemma extract_length_eq_truthy_count (m : Metadata) :
    (extract_frame_ids m).length =
      ((all_frame_refs m).filter FrameRef.truthyID).length := by
  unfold extract_frame_ids all_frame_refs
  induction m.series_dict with
  | nil => rfl
  | cons sp rest ihs =>
    simp only [List.flatMap_cons, List.filter_append, List.length_append, ihs]
    congr 1
    induction (sp.2.Instances.getD []) with
    | nil => rfl
    | cons ip irest ihi =>
      simp only [List.flatMap_cons, List.filter_append, List.length_append,
        List.filterMap_append, ihi]
      congr 1
      rw [length_filterMap_eq_length_filter]
      congr 1
      apply List.filter_congr
      intro fr _
      rw [descriptor_of_frame_isSome]

/-- The total frame-reference count is the length of the flattened list. -/
lemma all_frame_refs_length (m : Metadata) :
    (all_frame_refs m).length = total_frame_ref_count m := by
  unfold all_frame_refs total_frame_ref_count
  induction m.series_dict with
  | nil => rfl
  | cons sp rest ihs =>
    simp only [List.flatMap_cons, List.length_append, List.map_cons, List.sum_cons, ihs]
    congr 1
    induction (sp.2.Instances.getD []) with
    | nil => rfl
    | cons ip irest ihi =>
      simp only [List.flatMap_cons, List.length_append, List.map_cons,
        List.sum_cons, ihi]

/-- Command-line arguments of `fetch.py` relevant to the fetch run.
`--max-frames` is parsed with `type=int`, so it is a signed integer with
default `0` (meaning "all"). -/
structure Args where
  datastore_id : String
  image_set_id : String
  max_frames : Int
deriving Repr, DecidableEq

/-- `if args.max_frames > 0: frame_ids = frame_ids[:args.max_frames]`. -/
def truncate_frames (frame_ids : List FrameInfo) (max_frames : Int) :
    List FrameInfo :=
  if max_frames > 0 then frame_ids.take max_frames.toNat else frame_ids

/-- One manifest entry, mirroring the JSON object built in the loop:
the three descriptor keys spread by `**frame_info`, then either
`filename`+`size` (success branch) or `error` (except branch). -/
structure FrameEntry where
  frameId : String
  seriesId : String
  instanceId : String
  filename : Option String
  size : Option Nat
  error : Option String
deriving Repr, DecidableEq

/-- `manifest["frames"].append({**frame_info, "filename": filepath.name, "size": len(frame_data)})`. -/
def mk_success_entry (fi : FrameInfo) (filename : String) (size : Nat) :
    FrameEntry :=
  { frameId := fi.frameId, seriesId := fi.seriesId, instanceId := fi.instanceId,
    filename := some filename, size := some size, error := none }

/-- `manifest["frames"].append({**frame_info, "error": str(e)})`. -/
def mk_error_entry (fi : FrameInfo) (msg : String) : FrameEntry :=
  { frameId := fi.frameId, seriesId := fi.seriesId, instanceId := fi.instanceId,
    filename := none, size := none, error := some msg }

/-- The manifest dict initialized before the loop and serialized at the end. -/
structure Manifest where
  datastoreId : String
  imageSetId : String
  totalFrames : Nat
  frames : List FrameEntry
deriving Repr, DecidableEq

/-- The effectful environment of one run: each fallible operation's outcome.
`fetch` models `fetch_image_frame` keyed by frame id; `write_frame` models
the `open`/`write` of `save_frame` keyed by filename and payload.  An
`Except.error` is a raised exception carrying `str(e)`. -/
structure RunEnv where
  mkdir_result : Except String Unit
  metadata_result : Except String Metadata
  write_metadata_result : Except String Unit
  fetch : String → Except String (List Nat)
  write_frame : String → List Nat → Except String Unit
  write_manifest_result : Except String Unit

/-- The filename built by `save_frame`:
`f"{seriesId}_{instanceId}_{frameId}.htj2k"`. -/
def frame_filename (fi : FrameInfo) : String :=
  fi.seriesId ++ "_" ++ fi.instanceId ++ "_" ++ fi.frameId ++ ".htj2k"

/-- The body of the per-frame loop for one descriptor: try to fetch the
frame and save it; on success record the written file and a success entry,
on any exception record an error entry and write nothing.  Returns the
frame files written (filename, payload) and the manifest entry appended. -/
def fetch_and_save (env : RunEnv) (fi : FrameInfo) :
    List (String × List Nat) × FrameEntry :=
  match env.fetch fi.frameId with
  | Except.error e => ([], mk_error_entry fi e)
  | Except.ok data =>
    match env.write_frame (frame_filename fi) data with
    | Except.error e => ([], mk_error_entry fi e)
    | Except.ok _ =>
        ([(frame_filename fi, data)],
         mk_success_entry fi (frame_filename fi) data.length)

/-- `for i, frame_info in enumerate(frame_ids): ...` — process descriptors
in order, isolating each failure to its own entry. -/
def process_loop (env : RunEnv) : List FrameInfo →
    List (String × List Nat) × List FrameEntry
  | [] => ([], [])
  | fi :: rest =>
    let step := fetch_and_save env fi
    let tail := process_loop env rest
    (step.1 ++ tail.1, step.2 :: tail.2)

/-- Content of a file appearing in the output directory. -/
inductive FileContent where
  | metaFile (m : Metadata)
  | frameFile (data : List Nat)
  | manifestFile (m : Manifest)
deriving Repr, DecidableEq

/-- Outcome of one invocation of `main`: the files written to the output
directory in write order, the manifest object built by the loop (`none`
when the run aborts before the loop), and either the returned value or the
propagated exception. -/
structure RunResult where
  files : List (String × FileContent)
  manifest : Option Manifest
  exit : Except String Nat
deriving Repr

/-- `main()` of `fetch.py`: create the output directory, resolve metadata,
persist `metadata.json`, enumerate and optionally truncate descriptors,
run the per-frame loop, and serialize `manifest.json`; returns 0.  Any
exception outside the loop's `try` propagates. -/
def runMain (env : RunEnv) (args : Args) : RunResult :=
  match env.mkdir_result with
  | Except.error e => { files := [], manifest := none, exit := Except.error e }
  | Except.ok _ =>
  match env.metadata_result with
  | Except.error e => { files := [], manifest := none, exit := Except.error e }
  | Except.ok metadata =>
  match env.write_metadata_result with
  | Except.error e => { files := [], manifest := none, exit := Except.error e }
  | Except.ok _ =>
    let frame_ids := truncate_frames (extract_frame_ids metadata) args.max_frames
    let looped := process_loop env frame_ids
    let manifest : Manifest :=
      { datastoreId := args.datastore_id, imageSetId := args.image_set_id,
        totalFrames := frame_ids.length, frames := looped.2 }
    let written :=
      ("metadata.json", FileContent.metaFile metadata) ::
        looped.1.map (fun p => (p.1, FileContent.frameFile p.2))
    match env.write_manifest_result with
    | Except.error e =>
        { files := written, manifest := some manifest, exit := Except.error e }
    | Except.ok _ =>
        { files := written ++ [("manifest.json", FileContent.manifestFile manifest)],
          manifest := some manifest, exit := Except.ok 0 }

/-- `sys.exit(main())`: the returned value on normal completion; a Python
process dies with exit code 1 on an unhandled exception. -/
def sysExitCode (r : RunResult) : Nat :=
  match r.exit with
  | Except.ok n => n
  | Except.error _ => 1

/-- Minimal JSON value model for what `json.dump` writes and `json.loads`
reads back; object keys keep insertion order. -/
inductive Json where
  | str (s : String)
  | num (n : Int)
  | arr (xs : List Json)
  | obj (fields : List (String × Json))

/-- Field lookup on a parsed JSON object. -/
def Json.getField : Json → String → Option Json
  | Json.obj fields, k => (fields.find? (fun p => p.1 == k)).map (fun p => p.2)
  | _, _ => none

/-- Serialization of one manifest entry, key order as built in the loop. -/
def FrameEntry.toJson (e : FrameEntry) : Json :=
  Json.obj
    ([("frameId", Json.str e.frameId), ("seriesId", Json.str e.seriesId),
      ("instanceId", Json.str e.instanceId)]
      ++ (match e.filename with
          | some f => [("filename", Json.str f)]
          | none => [])
      ++ (match e.size with
          | some s => [("size", Json.num (Int.ofNat s))]
          | none => [])
      ++ (match e.error with
          | some m => [("error", Json.str m)]
          | none => []))

/-- Serialization of the manifest dict, key order as initialized in `main`. -/
def Manifest.toJson (m : Manifest) : Json :=
  Json.obj
    [("datastoreId", Json.str m.datastoreId),
     ("imageSetId", Json.str m.imageSetId),
     ("totalFrames", Json.num (Int.ofNat m.totalFrames)),
     ("frames", Json.arr (m.frames.map FrameEntry.toJson))]

/-- Reading the `totalFrames` field back from a parsed manifest. -/
def json_total_frames (j : Json) : Option Int :=
  match j.getField "totalFrames" with
  | some (Json.num n) => some n
  | _ => none

/-- Reading the length of the `frames` list back from a parsed manifest. -/
def json_frames_count (j : Json) : Option Nat :=
  match j.getField "frames" with
  | some (Json.arr xs) => some xs.length
  | _ => none

lemma process_loop_length (env : RunEnv) (l : List FrameInfo) :
    (process_loop env l).2.length = l.length := by
  induction l with
  | nil => rfl
  | cons fi rest ih => simp [process_loop, ih]

/-- Each entry keeps its descriptor's three identity fields, whatever the
per-frame outcome. -/
lemma fetch_and_save_descriptor (env : RunEnv) (fi : FrameInfo) :
    ((fetch_and_save env fi).2.frameId, (fetch_and_save env fi).2.seriesId,
      (fetch_and_save env fi).2.instanceId) =
      (fi.frameId, fi.seriesId, fi.instanceId) := by
  cases hf : env.fetch fi.frameId with
  | error e => simp [fetch_and_save, hf, mk_error_entry]
  | ok data =>
    cases hw : env.write_frame (frame_filename fi) data with
    | error e => simp [fetch_and_save, hf, hw, mk_error_entry]
    | ok u => simp [fetch_and_save, hf, hw, mk_success_entry]

lemma process_loop_descriptors (env : RunEnv) (l : List FrameInfo) :
    (process_loop env l).2.map
        (fun e => (e.frameId, e.seriesId, e.instanceId)) =
      l.map (fun fi => (fi.frameId, fi.seriesId, fi.instanceId)) := by
  induction l with
  | nil => rfl
  | cons fi rest ih =>
    simp only [process_loop, List.map_cons, ih, List.cons.injEq, and_true]
    exact fetch_and_save_descriptor env fi

/-- Every entry appended by the loop is a success record (filename and size
present, no error key) or an error record (error present, no filename, no
size key), never both, never neither. -/
lemma fetch_and_save_shape (env : RunEnv) (fi : FrameInfo) :
    ((fetch_and_save env fi).2.filename.isSome ∧
        (fetch_and_save env fi).2.size.isSome ∧
        (fetch_and_save env fi).2.error = none) ∨
      ((fetch_and_save env fi).2.error.isSome ∧
        (fetch_and_save env fi).2.filename = none ∧
        (fetch_and_save env fi).2.size = none) := by
  cases hf : env.fetch fi.frameId with
  | error e => right; simp [fetch_and_save, hf, mk_error_entry]
  | ok data =>
    cases hw : env.write_frame (frame_filename fi) data with
    | error e => right; simp [fetch_and_save, hf, hw, mk_error_entry]
    | ok u => left; simp [fetch_and_save, hf, hw, mk_success_entry]

lemma process_loop_shape (env : RunEnv) (l : List FrameInfo) :
    ∀ e ∈ (process_loop env l).2,
      (e.filename.isSome ∧ e.size.isSome ∧ e.error = none) ∨
        (e.error.isSome ∧ e.filename = none ∧ e.size = none) := by
  induction l with
  | nil => intro e he; cases he
  | cons fi rest ih =>
    intro e he
    simp only [process_loop, List.mem_cons] at he
    cases he with
    | inl h => subst h; exact fetch_and_save_shape env fi
    | inr h => exact ih e h

/-- Completed-run normal form of `runMain`: once directory creation,
metadata resolution, the metadata write and the manifest write all succeed,
the result is fully determined by the loop. -/
lemma runMain_completed (env : RunEnv) (args : Args) (m : Metadata)
    (h1 : env.mkdir_result = Except.ok ())
    (h2 : env.metadata_result = Except.ok m)
    (h3 : env.write_metadata_result = Except.ok ())
    (h4 : env.write_manifest_result = Except.ok ()) :
    runMain env args =
      { files :=
          (("metadata.json", FileContent.metaFile m) ::
            (process_loop env
              (truncate_frames (extract_frame_ids m) args.max_frames)).1.map
              (fun p => (p.1, FileContent.frameFile p.2))) ++
            [("manifest.json", FileContent.manifestFile
              { datastoreId := args.datastore_id,
                imageSetId := args.image_set_id,
                totalFrames :=
                  (truncate_frames (extract_frame_ids m) args.max_frames).length,
                frames := (process_loop env
                  (truncate_frames (extract_frame_ids m) args.max_frames)).2 })],
        manifest := some
          { datastoreId := args.datastore_id,
            imageSetId := args.image_set_id,
            totalFrames :=
              (truncate_frames (extract_frame_ids m) args.max_frames).length,
            frames := (process_loop env
              (truncate_frames (extract_frame_ids m) args.max_frames)).2 },
        exit := Except.ok 0 } := by
  simp [runMain, h1, h2, h3, h4]

/-- A loop that ran to completion fixes the built manifest whatever the
final manifest-write outcome. -/
lemma runMain_loop_manifest (env : RunEnv) (args : Args) (m : Metadata)
    (h1 : env.mkdir_result = Except.ok ())
    (h2 : env.metadata_result = Except.ok m)
    (h3 : env.write_metadata_result = Except.ok ()) :
    (runMain env args).manifest = some
      { datastoreId := args.datastore_id,
        imageSetId := args.image_set_id,
        totalFrames :=
          (truncate_frames (extract_frame_ids m) args.max_frames).length,
        frames := (process_loop env
          (truncate_frames (extract_frame_ids m) args.max_frames)).2 } := by
  cases hw : env.write_manifest_result with
  | error e => simp [runMain, h1, h2, h3, hw]
  | ok u => simp [runMain, h1, h2, h3, hw]

/-- A small concrete metadata document: one study, one series `s1` with two
instances; three frames `f1`, `f2`, `f3` in total, all with truthy IDs. -/
def demo_meta : Metadata :=
  { Study := some { Series := some [
      ("s1", { Instances := some [
        ("i1", { ImageFrames := some [{ ID := some "f1" }, { ID := some "f2" }] }),
        ("i2", { ImageFrames := some [{ ID := some "f3" }] })] })] } }

/-- A document with three frame references, two of them falsy (`None` and
`""`), so enumeration keeps only one. -/
def bad_id_meta : Metadata :=
  { Study := some { Series := some [
      ("s1", { Instances := some [
        ("i1", { ImageFrames := some [
          { ID := some "f1" }, { ID := none }, { ID := some "" }] })] })] } }

def demo_args : Args :=
  { datastore_id := "ds-1", image_set_id := "img-1", max_frames := 0 }

/-- An environment where every operation succeeds. -/
def env_ok : RunEnv :=
  { mkdir_result := Except.ok (),
    metadata_result := Except.ok demo_meta,
    write_metadata_result := Except.ok (),
    fetch := fun _ => Except.ok [7, 7],
    write_frame := fun _ _ => Except.ok (),
    write_manifest_result := Except.ok () }

/-- An environment where only the fetch of frame `f2` raises. -/
def env_f2fail : RunEnv :=
  { mkdir_result := Except.ok (),
    metadata_result := Except.ok demo_meta,
    write_metadata_result := Except.ok (),
    fetch := fun fid =>
      if fid == "f2" then Except.error "boom" else Except.ok [1, 2, 3],
    write_frame := fun _ _ => Except.ok (),
    write_manifest_result := Except.ok () }

/-- An environment where metadata resolution raises. -/
def env_badmeta : RunEnv :=
  { mkdir_result := Except.ok (),
    metadata_result := Except.error "AccessDeniedException",
    write_metadata_result := Except.ok (),
    fetch := fun _ => Except.ok [7, 7],
    write_frame := fun _ _ => Except.ok (),
    write_manifest_result := Except.ok () }

def demo_f1 : FrameInfo := { frameId := "f1", seriesId := "s1", instanceId := "i1" }

def demo_f2 : FrameInfo := { frameId := "f2", seriesId := "s1", instanceId := "i1" }

def demo_f3 : FrameInfo := { frameId := "f3", seriesId := "s1", instanceId := "i2" }

/-- C1: for every run that completes the per-frame loop, the manifest's
frames list has exactly one entry per enumerated (and, when maxFrames is
set, truncated) descriptor, in enumeration order, and every entry is a
success record (filename and size present, no error field) or an error
record (error present, no filename field), never both and never neither. -/
theorem manifest_entries_complete (env : RunEnv) (args : Args) (m : Metadata)
    (h1 : env.mkdir_result = Except.ok ())
    (h2 : env.metadata_result = Except.ok m)
    (h3 : env.write_metadata_result = Except.ok ()) :
    ∃ M, (runMain env args).manifest = some M ∧
      M.frames.length =
        (truncate_frames (extract_frame_ids m) args.max_frames).length ∧
      M.frames.map (fun e => (e.frameId, e.seriesId, e.instanceId)) =
        (truncate_frames (extract_frame_ids m) args.max_frames).map
          (fun fi => (fi.frameId, fi.seriesId, fi.instanceId)) ∧
      ∀ e ∈ M.frames,
        (e.filename.isSome ∧ e.size.isSome ∧ e.error = none) ∨
          (e.error.isSome ∧ e.filename = none ∧ e.size = none) := by
  refine ⟨_, runMain_loop_manifest env args m h1 h2 h3, ?_, ?_, ?_⟩
  · exact process_loop_length env _
  · exact process_loop_descriptors env _
  · exact process_loop_shape env _

theorem manifest_entries_complete_witness :
    ∃ M, (runMain env_f2fail demo_args).manifest = some M ∧
      M.frames.length =
        (truncate_frames (extract_frame_ids demo_meta) demo_args.max_frames).length ∧
      M.frames.map (fun e => (e.frameId, e.seriesId, e.instanceId)) =
        (truncate_frames (extract_frame_ids demo_meta) demo_args.max_frames).map
          (fun fi => (fi.frameId, fi.seriesId, fi.instanceId)) ∧
      ∀ e ∈ M.frames,
        (e.filename.isSome ∧ e.size.isSome ∧ e.error = none) ∨
          (e.error.isSome ∧ e.filename = none ∧ e.size = none) :=
  manifest_entries_complete env_f2fail demo_args demo_meta rfl rfl rfl

/-- C2: a failure while fetching or writing a single frame does not halt
processing of subsequent frames: when exactly frame #2 of 3 fails, the
loop yields 3 entries, entry #2 an error record carrying the exception's
message, entries #1 and #3 success records. -/
theorem per_frame_failure_isolated (env : RunEnv) (f1 f2 f3 : FrameInfo)
    (d1 d3 : List Nat) (msg : String)
    (hf1 : env.fetch f1.frameId = Except.ok d1)
    (hw1 : env.write_frame (frame_filename f1) d1 = Except.ok ())
    (hf2 : env.fetch f2.frameId = Except.error msg)
    (hf3 : env.fetch f3.frameId = Except.ok d3)
    (hw3 : env.write_frame (frame_filename f3) d3 = Except.ok ()) :
    (process_loop env [f1, f2, f3]).2.length = 3 ∧
      (process_loop env [f1, f2, f3]).2 =
        [mk_success_entry f1 (frame_filename f1) d1.length,
         mk_error_entry f2 msg,
         mk_success_entry f3 (frame_filename f3) d3.length] := by
  constructor
  · exact process_loop_length env _
  · simp [process_loop, fetch_and_save, hf1, hw1, hf2, hf3, hw3]

theorem per_frame_failure_isolated_witness :
    (process_loop env_f2fail [demo_f1, demo_f2, demo_f3]).2.length = 3 ∧
      (process_loop env_f2fail [demo_f1, demo_f2, demo_f3]).2 =
        [mk_success_entry demo_f1 (frame_filename demo_f1) [1, 2, 3].length,
         mk_error_entry demo_f2 "boom",
         mk_success_entry demo_f3 (frame_filename demo_f3) [1, 2, 3].length] :=
  per_frame_failure_isolated env_f2fail demo_f1 demo_f2 demo_f3
    [1, 2, 3] [1, 2, 3] "boom" rfl rfl rfl rfl rfl

/-- C3: for every well-formed metadata document (every frame reference
carries a truthy `ID`), enumeration produces as many descriptors as the
sum over all series and instances of the number of frame-reference
entries in that instance's `ImageFrames` list. -/
theorem enumeration_counts_all_refs (m : Metadata) (h : wellFormedMeta m) :
    (extract_frame_ids m).length = total_frame_ref_count m := by
  rw [extract_length_eq_truthy_count, ← all_frame_refs_length]
  congr 1
  exact List.filter_eq_self.mpr h

theorem enumeration_counts_all_refs_witness :
    wellFormedMeta demo_meta ∧
      (extract_frame_ids demo_meta).length = total_frame_ref_count demo_meta :=
  ⟨by unfold wellFormedMeta; decide,
    enumeration_counts_all_refs demo_meta (by unfold wellFormedMeta; decide)⟩

/-- C4: truncation with maxFrames = 0 yields all descriptors unchanged,
and maxFrames = N for N > 0 yields exactly min(N, total) descriptors, the
first N in enumeration order, silently and without error. -/
theorem max_frames_truncation (l : List FrameInfo) (n : Int) (hn : 0 < n) :
    truncate_frames l 0 = l ∧
      truncate_frames l n = l.take n.toNat ∧
      (truncate_frames l n).length = min n.toNat l.length := by
  refine ⟨by simp [truncate_frames], by simp [truncate_frames, hn], ?_⟩
  simp [truncate_frames, hn, List.length_take]

theorem max_frames_truncation_witness :
    0 < (2 : Int) ∧
      (truncate_frames (extract_frame_ids demo_meta) 0 =
          extract_frame_ids demo_meta ∧
        truncate_frames (extract_frame_ids demo_meta) 2 =
          (extract_frame_ids demo_meta).take (2 : Int).toNat ∧
        (truncate_frames (extract_frame_ids demo_meta) 2).length =
          min (2 : Int).toNat (extract_frame_ids demo_meta).length) :=
  ⟨by decide, max_frames_truncation (extract_frame_ids demo_meta) 2 (by decide)⟩

/-- C5: when metadata resolution raises (remote call, decompression or
parsing), the run aborts before any frame work: no file at all is written
to the output directory (in particular neither `metadata.json` nor
`manifest.json`), no manifest is built, the exception propagates and the
process exit code is nonzero. -/
theorem metadata_failure_aborts_run (env : RunEnv) (args : Args) (e : String)
    (h1 : env.mkdir_result = Except.ok ())
    (h2 : env.metadata_result = Except.error e) :
    (runMain env args).files = [] ∧
      (runMain env args).manifest = none ∧
      (runMain env args).exit = Except.error e ∧
      sysExitCode (runMain env args) ≠ 0 := by
  have hr : runMain env args =
      { files := [], manifest := none, exit := Except.error e } := by
    simp [runMain, h1, h2]
  rw [hr]
  exact ⟨rfl, rfl, rfl, by simp [sysExitCode]⟩

theorem metadata_failure_aborts_run_witness :
    (runMain env_badmeta demo_args).files = [] ∧
      (runMain env_badmeta demo_args).manifest = none ∧
      (runMain env_badmeta demo_args).exit =
        Except.error "AccessDeniedException" ∧
      sysExitCode (runMain env_badmeta demo_args) ≠ 0 :=
  metadata_failure_aborts_run env_badmeta demo_args "AccessDeniedException"
    rfl rfl

/-- C6: a run whose non-per-frame operations all succeed returns 0 and
exits 0 whatever the per-frame fetch and write outcomes (`env.fetch` and
`env.write_frame` are unconstrained); conversely a nonzero exit implies an
exception outside the per-frame isolation boundary (directory creation,
metadata resolution, the metadata write or the manifest write). -/
theorem exit_code_policy (env : RunEnv) (args : Args) :
    ((env.mkdir_result = Except.ok () ∧
        (∃ md, env.metadata_result = Except.ok md) ∧
        env.write_metadata_result = Except.ok () ∧
        env.write_manifest_result = Except.ok ()) →
      (runMain env args).exit = Except.ok 0 ∧
        sysExitCode (runMain env args) = 0) ∧
    (sysExitCode (runMain env args) ≠ 0 →
      (∃ e, env.mkdir_result = Except.error e) ∨
        (∃ e, env.metadata_result = Except.error e) ∨
        (∃ e, env.write_metadata_result = Except.error e) ∨
        (∃ e, env.write_manifest_result = Except.error e)) := by
  constructor
  · rintro ⟨h1, ⟨md, h2⟩, h3, h4⟩
    have hr := runMain_completed env args md h1 h2 h3 h4
    rw [hr]
    exact ⟨rfl, rfl⟩
  · intro hne
    cases h1 : env.mkdir_result with
    | error e => exact Or.inl ⟨e, rfl⟩
    | ok u =>
      cases h2 : env.metadata_result with
      | error e => exact Or.inr (Or.inl ⟨e, rfl⟩)
      | ok md =>
        cases h3 : env.write_metadata_result with
        | error e => exact Or.inr (Or.inr (Or.inl ⟨e, rfl⟩))
        | ok v =>
          cases h4 : env.write_manifest_result with
          | error e => exact Or.inr (Or.inr (Or.inr ⟨e, rfl⟩))
          | ok w =>
            exfalso
            apply hne
            cases u; cases v; cases w
            rw [runMain_completed env args md h1 h2 h3 h4]
            rfl

theorem exit_code_policy_witness :
    (runMain env_f2fail demo_args).exit = Except.ok 0 ∧
      sysExitCode (runMain env_f2fail demo_args) = 0 :=
  (exit_code_policy env_f2fail demo_args).1 ⟨rfl, ⟨demo_meta, rfl⟩, rfl, rfl⟩

lemma json_total_frames_toJson (M : Manifest) :
    json_total_frames M.toJson = some (Int.ofNat M.totalFrames) := rfl

lemma json_frames_count_toJson (M : Manifest) :
    json_frames_count M.toJson = some M.frames.length := by
  show some (M.frames.map FrameEntry.toJson).length = some M.frames.length
  rw [List.length_map]

/-- C7: for every completed run, the file written last is `manifest.json`,
and parsing it back yields a `totalFrames` field equal to the length of
its `frames` list, both equal to the number of processed descriptors. -/
theorem manifest_roundtrip_total_frames (env : RunEnv) (args : Args)
    (m : Metadata)
    (h1 : env.mkdir_result = Except.ok ())
    (h2 : env.metadata_result = Except.ok m)
    (h3 : env.write_metadata_result = Except.ok ())
    (h4 : env.write_manifest_result = Except.ok ()) :
    ∃ M, (runMain env args).files.getLast? =
        some ("manifest.json", FileContent.manifestFile M) ∧
      json_total_frames M.toJson = some (Int.ofNat M.frames.length) ∧
      json_frames_count M.toJson = some M.frames.length ∧
      M.frames.length =
        (truncate_frames (extract_frame_ids m) args.max_frames).length := by
  refine ⟨{ datastoreId := args.datastore_id, imageSetId := args.image_set_id,
            totalFrames :=
              (truncate_frames (extract_frame_ids m) args.max_frames).length,
            frames := (process_loop env
              (truncate_frames (extract_frame_ids m) args.max_frames)).2 },
          ?_, ?_, ?_, ?_⟩
  · rw [runMain_completed env args m h1 h2 h3 h4]
    exact List.getLast?_concat _
  · rw [json_total_frames_toJson]
    rw [process_loop_length]
  · exact json_frames_count_toJson _
  · exact process_loop_length env _

theorem manifest_roundtrip_total_frames_witness :
    ∃ M, (runMain env_f2fail demo_args).files.getLast? =
        some ("manifest.json", FileContent.manifestFile M) ∧
      json_total_frames M.toJson = some (Int.ofNat M.frames.length) ∧
      json_frames_count M.toJson = some M.frames.length ∧
      M.frames.length =
        (truncate_frames (extract_frame_ids demo_meta) demo_args.max_frames).length :=
  manifest_roundtrip_total_frames env_f2fail demo_args demo_meta rfl rfl rfl rfl

/-- C8: whenever the run reaches the per-frame phase, the raw metadata
document is the first file persisted, under the well-known name
`metadata.json`, verbatim and independent of every per-frame outcome and
of the final manifest write. -/
theorem metadata_persisted_first (env : RunEnv) (args : Args) (m : Metadata)
    (h1 : env.mkdir_result = Except.ok ())
    (h2 : env.metadata_result = Except.ok m)
    (h3 : env.write_metadata_result = Except.ok ()) :
    (runMain env args).files.head? =
      some ("metadata.json", FileContent.metaFile m) := by
  cases hw : env.write_manifest_result with
  | error e => simp [runMain, h1, h2, h3, hw]
  | ok u => cases u; simp [runMain, h1, h2, h3, hw]

theorem metadata_persisted_first_witness :
    (runMain env_f2fail demo_args).files.head? =
      some ("metadata.json", FileContent.metaFile demo_meta) :=
  metadata_persisted_first env_f2fail demo_args demo_meta rfl rfl rfl

/-- C9: a successfully fetched and written frame is persisted under the
deterministic filename `{seriesId}_{instanceId}_{frameId}.htj2k`, the
payload bytes are written to that file, and the success record carries
that filename and the payload's byte count. -/
theorem frame_persistence_success_record (env : RunEnv) (fi : FrameInfo)
    (data : List Nat)
    (hf : env.fetch fi.frameId = Except.ok data)
    (hw : env.write_frame (frame_filename fi) data = Except.ok ()) :
    frame_filename fi =
        fi.seriesId ++ "_" ++ fi.instanceId ++ "_" ++ fi.frameId ++ ".htj2k" ∧
      (fetch_and_save env fi).1 = [(frame_filename fi, data)] ∧
      (fetch_and_save env fi).2.filename = some (frame_filename fi) ∧
      (fetch_and_save env fi).2.size = some data.length ∧
      (fetch_and_save env fi).2.error = none := by
  refine ⟨rfl, ?_, ?_, ?_, ?_⟩ <;>
    simp [fetch_and_save, hf, hw, mk_success_entry]

theorem frame_persistence_success_record_witness :
    frame_filename demo_f1 =
        demo_f1.seriesId ++ "_" ++ demo_f1.instanceId ++ "_" ++
          demo_f1.frameId ++ ".htj2k" ∧
      (fetch_and_save env_ok demo_f1).1 = [(frame_filename demo_f1, [7, 7])] ∧
      (fetch_and_save env_ok demo_f1).2.filename =
        some (frame_filename demo_f1) ∧
      (fetch_and_save env_ok demo_f1).2.size = some [7, 7].length ∧
      (fetch_and_save env_ok demo_f1).2.error = none :=
  frame_persistence_success_record env_ok demo_f1 [7, 7] rfl rfl

/-- C10 (implicit): enumeration yields exactly one descriptor per frame
reference with a truthy `ID`; a reference whose `ID` is missing or the
empty string contributes nothing, so the descriptor count can be strictly
smaller than the document's frame-reference count. -/
theorem falsy_frame_id_skipped :
    (∀ m : Metadata,
      (extract_frame_ids m).length =
          ((all_frame_refs m).filter FrameRef.truthyID).length ∧
        (extract_frame_ids m).length ≤ total_frame_ref_count m) ∧
    (∀ sid iid : String,
      descriptor_of_frame sid iid { ID := none } = none ∧
        descriptor_of_frame sid iid { ID := some "" } = none) ∧
    (∃ m : Metadata,
      (extract_frame_ids m).length < total_frame_ref_count m) := by
  refine ⟨?_, ?_, ⟨bad_id_meta, by decide⟩⟩
  · intro m
    refine ⟨extract_length_eq_truthy_count m, ?_⟩
    rw [extract_length_eq_truthy_count, ← all_frame_refs_length]
    exact List.length_filter_le _ _
  · intro sid iid
    exact ⟨rfl, rfl⟩
